import Mathlib

/-
Verification of the PeelForceTester serial communication core.

The repository drives a motorized peel-force test rig over a serial link.
Two GUI variants share the same communication core:
  * `Python/peelForceSerial/peelForceSerial.py`    (newer variant, settings echo support)
  * `Python/peelForceSerial/peelForceSerialCom.py` (older variant)
This file shallowly embeds the communication and data-routing logic of both
variants: line parsing and CSV logging (`MainWindow.log_message`), command
serialization (`set_rpm`, `set_interval`, `start_motor`, ...), the serial
worker's read loop and cooperative stop (`SerialWorker.run` / `stop`),
the Qt-signal telemetry routing used for calibration hand-off
(`open_calibration_dialog`, `CalibrationDialog`), and connection setup
(`toggle_connection`).

Strings are modelled as `List Char`; the Python single-character `split`,
`strip`, `startswith` and substring `in` operations are embedded as
structurally recursive functions below.
-/

namespace PeelForce

/-- Python `str.split(sep)` for a single-character separator.
`"".split(c) = [""]`, and the result always has one more element than the
number of separator occurrences. -/
def pySplit (sep : Char) : List Char → List (List Char)
  | [] => [[]]
  | c :: rest =>
    let r := pySplit sep rest
    if c = sep then [] :: r
    else
      match r with
      | [] => [[c]]
      | h :: t => (c :: h) :: t

/-- Python `str.strip()` with no argument: remove leading and trailing
whitespace characters. -/
def pyStrip (s : List Char) : List Char :=
  ((s.dropWhile Char.isWhitespace).reverse.dropWhile Char.isWhitespace).reverse

/-- Python `str.startswith(p)`. -/
def pyStartswith : List Char → List Char → Bool
  | [], _ => true
  | _ :: _, [] => false
  | p :: ps, s :: ss => p == s && pyStartswith ps ss

/-- Python substring containment `needle in hay` for strings. -/
def pyContainsSub (needle : List Char) : List Char → Bool
  | [] => needle.isEmpty
  | s :: ss => pyStartswith needle (s :: ss) || pyContainsSub needle ss

/-! ## Log Sink: the CSV record step of `MainWindow.log_message`

Both variants share the same record logic (peelForceSerial.py lines 241-248,
peelForceSerialCom.py lines 236-244):

    if self.motor_is_running and self.csv_writer:        # is_logging in the Com variant
        timestamp = datetime.now().strftime(...)
        parsed_data = message.split(',')
        if len(parsed_data) == 2:
            row = [timestamp] + [item.strip() for item in parsed_data]
            self.csv_writer.writerow(row)
        elif ',' in message:                              # else: if ',' in message: (Com)
            self.csv_writer.writerow([timestamp, message, ''])
-/

/-- The CSV record step of `log_message`: returns the row written for one
delivered message (`none` when nothing is written).  `loggingActive` is
`motor_is_running` (peelForceSerial.py) resp. `is_logging` (Com variant);
`hasWriter` is the truthiness of `self.csv_writer`. -/
def csvRecordRow (loggingActive hasWriter : Bool) (ts msg : List Char) :
    Option (List (List Char)) :=
  if loggingActive && hasWriter then
    let parsed := pySplit ',' msg
    if parsed.length = 2 then some (ts :: parsed.map pyStrip)
    else if msg.contains ',' then some [ts, msg, []]
    else none
  else none

/-! ## `MainWindow.log_message`, both variants -/

/-- Observable effects of one `log_message` call: lines appended to the GUI
log display, updates written to the rpm / interval input fields, and the CSV
row written (if any). -/
structure LogEffects where
  displayed : List (List Char)
  rpmSet : Option (List Char)
  intervalSet : Option (List Char)
  row : Option (List (List Char))
  deriving DecidableEq

/-- The settings-extraction of peelForceSerial.py lines 230-234:

    parts = message.split(',')
    rpm_part = parts[0].split(':')[1]
    interval_part = parts[1].split(':')[1]

`none` models the `IndexError` caught at line 235 (out-of-range `[1]` or
`parts[1]`); both `setText` calls happen only after both parts are computed,
so on `IndexError` neither field is updated. -/
def settingsParse (msg : List Char) : Option (List Char × List Char) :=
  let parts := pySplit ',' msg
  match (pySplit ':' (parts.getD 0 [])).get? 1, (pySplit ':' (parts.getD 1 [])).get? 1 with
  | some rpm, some itv => some (rpm, itv)
  | _, _ => none

/-- `MainWindow.log_message` of peelForceSerial.py (lines 225-248).  A message
starting with `"R:"` and containing `",I:"` is treated as a settings echo:
it is shown as `Received Settings: ...`, the rpm / interval fields are
updated (or a parse error is shown), and the method returns before the CSV
record step.  Any other message is appended to the display and handed to the
record step. -/
def log_message (motorRunning hasWriter : Bool) (ts msg : List Char) : LogEffects :=
  if pyStartswith "R:".data msg && pyContainsSub ",I:".data msg then
    match settingsParse msg with
    | some (rpm, itv) =>
        { displayed := ["Received Settings: ".data ++ msg]
          rpmSet := some rpm
          intervalSet := some itv
          row := none }
    | none =>
        { displayed := ["Received Settings: ".data ++ msg,
                        "Error: Could not parse settings from Arduino.".data]
          rpmSet := none
          intervalSet := none
          row := none }
  else
    { displayed := [msg]
      rpmSet := none
      intervalSet := none
      row := csvRecordRow motorRunning hasWriter ts msg }

/-- `MainWindow.log_message` of peelForceSerialCom.py (lines 233-244): no
settings-echo interception exists in this variant; every message is appended
to the display and handed to the record step. -/
def log_message_Com (isLogging hasWriter : Bool) (ts msg : List Char) : LogEffects :=
  { displayed := [msg]
    rpmSet := none
    intervalSet := none
    row := csvRecordRow isLogging hasWriter ts msg }

/-! ## Command serialization

Each command site formats a fixed ASCII line terminated by a line feed:
`start_motor` sends `"A\n"` (peelForceSerial.py line 260, Com line 286),
`stop_motor` sends `"B\n"`, `reset_motor` sends `"C\n"`,
`CalibrationDialog.start_calibration` sends `"D\n"`,
`set_rpm` sends `f"R{self.rpm_input.text()}\n"`,
`set_interval` sends `f"I{self.interval_input.text()}\n"`, and
`CalibrationDialog.send_input_to_arduino` sends `f"{text}\n"`.
The payloads of `setRPM` / `setInterval` are the literal text of the
integer-validated input fields. -/

/-- The commands the GUI can issue, tagged with their textual payloads. -/
inductive CommandRequest where
  | start
  | stop
  | reset
  | calibrate
  | setRPM (text : List Char)
  | setInterval (text : List Char)
  | rawInput (text : List Char)
  deriving DecidableEq

/-- The ASCII line each command site passes to `SerialWorker.send_command`. -/
def serializeCommand : CommandRequest → List Char
  | .start => "A\n".data
  | .stop => "B\n".data
  | .reset => "C\n".data
  | .calibrate => "D\n".data
  | .setRPM t => 'R' :: (t ++ ['\n'])
  | .setInterval t => 'I' :: (t ++ ['\n'])
  | .rawInput t => t ++ ['\n']

/-! ## `SerialWorker.send_command`

    def send_command(self, command):
        if self.serial_port and self.serial_port.is_open:
            self.serial_port.write(command.encode('utf-8'))
            print(f"Sent: {command}")

When `self.serial_port` is `None` or the port is closed the method falls
through: nothing is written, no exception is raised, no error value is
returned or signalled to the caller. -/

/-- Truthiness and openness of `self.serial_port`. -/
structure PortHandle where
  isOpen : Bool
  deriving DecidableEq

/-- The behaviors of one `send_command` call a caller could observe.  The
source produces only `wrote` (bytes queued to the transport) and `silent`
(the guard is false and the method returns with no write and no error);
`err` is the error-reporting outcome the specification describes, which the
source never produces. -/
inductive SendError where
  | notConnected
  deriving DecidableEq

inductive SendOutcome where
  | wrote (bytes : List Char)
  | err (e : SendError)
  | silent
  deriving DecidableEq

/-- `SerialWorker.send_command` (peelForceSerial.py lines 94-97,
Com lines 103-106). -/
def send_command (port : Option PortHandle) (command : List Char) : SendOutcome :=
  match port with
  | some p => if p.isOpen then .wrote command else .silent
  | none => .silent

/-! ## `MainWindow.toggle_connection`: connect parameters -/

/-- Arguments passed to the `SerialWorker` constructor (and from there to
`serial.Serial(self.port, self.baud_rate, timeout=1)`). -/
structure ConnectParams where
  port : List Char
  baud : Nat
  deriving DecidableEq

/-- `MainWindow.toggle_connection`, connect branch, peelForceSerial.py
lines 322-329: with no selected port the method returns without connecting;
otherwise it constructs `SerialWorker(port=selected_port, baud_rate=115220)`. -/
def toggle_connection (selectedPort : List Char) : Option ConnectParams :=
  if selectedPort = [] then none
  else some { port := selectedPort, baud := 115220 }

/-- `MainWindow.toggle_connection`, connect branch, peelForceSerialCom.py
lines 252-259: `SerialWorker(port=selected_port, baud_rate=115200)`. -/
def toggle_connection_Com (selectedPort : List Char) : Option ConnectParams :=
  if selectedPort = [] then none
  else some { port := selectedPort, baud := 115200 }

/-! ## `MainWindow.start_motor` (peelForceSerial.py lines 250-266)

    def start_motor(self):
        if not self.serial_worker or self.motor_is_running:
            return
        ...
        try:
            self.csv_file = open(full_path, 'w', newline='', encoding='utf-8')
            self.csv_writer = csv.writer(self.csv_file)
            self.csv_writer.writerow([...header...])
            self.serial_worker.send_command("A\n")
            self.log_message(f"Motor started. Logging to: {full_path}")
            self.motor_is_running = True
        except Exception as e:
            self.log_message(f"ERROR: Could not create log file. {e}")
            self.csv_file = None
            self.csv_writer = None
-/

/-- The `MainWindow` fields `start_motor` reads and writes. -/
structure MotorState where
  hasWorker : Bool
  motorRunning : Bool
  hasCsvFile : Bool
  hasCsvWriter : Bool
  sent : List (List Char)
  deriving DecidableEq

/-- Result of `open(full_path, 'w', ...)`: success, or an exception carrying
its message.  When `open` raises, none of the statements after it in the
`try` block execute. -/
inductive OpenResult where
  | ok
  | fail (err : List Char)
  deriving DecidableEq

/-- `MainWindow.start_motor` of peelForceSerial.py, with the outcome of the
file-open call made explicit.  On failure the `except` clause runs: the
error is shown (via `log_message`, not modelled here as no CSV writer is
active) and both handles are set to `None`; the Start command was never sent
and `motor_is_running` was never set. -/
def start_motor (st : MotorState) (res : OpenResult) : MotorState :=
  if !st.hasWorker || st.motorRunning then st
  else
    match res with
    | .ok =>
        { st with
          hasCsvFile := true
          hasCsvWriter := true
          sent := st.sent ++ ["A\n".data]
          motorRunning := true }
    | .fail _ =>
        { st with hasCsvFile := false, hasCsvWriter := false }

/-! ## Telemetry routing: `data_received` signal connections

The router of the specification is realised with Qt signal connections on
`SerialWorker.data_received`.  The connection list is the router state:
`emit(line)` invokes every connected slot, `connect` appends a connection,
`disconnect(slot)` removes the connections to that slot (the code wraps each
`disconnect` in `try/except RuntimeError: pass`, so disconnecting an absent
slot is a no-op). -/

/-- The telemetry sinks: `MainWindow.log_message`, and the bound
`handle_serial_data` method of each `CalibrationDialog` instance.  Every
click of the Calibrate button constructs a fresh dialog, so distinct
sessions are distinct slots; `calib d` is the handler of dialog instance
`d`. -/
inductive RouterTarget where
  | mainLog
  | calib (d : Nat)
  deriving DecidableEq

/-- `signal.connect(slot)`: appends a connection. -/
def qtConnect (t : RouterTarget) (conns : List RouterTarget) : List RouterTarget :=
  conns ++ [t]

/-- `try: signal.disconnect(slot) except RuntimeError: pass`: removes the
connections to `t`; absent `t` is a no-op. -/
def qtDisconnect (t : RouterTarget) : List RouterTarget → List RouterTarget
  | [] => []
  | c :: rest => if c = t then qtDisconnect t rest else c :: qtDisconnect t rest

/-- The sinks that receive one emitted line: `data_received.emit(line)`
invokes every connected slot. -/
def deliver (conns : List RouterTarget) (line : List Char) : List RouterTarget :=
  conns

/-- `MainWindow.open_calibration_dialog` (peelForceSerial.py lines 280-288)
followed by `CalibrationDialog.start_calibration` (lines 39-43): try to
disconnect `log_message` (a no-op when it is not connected, e.g. because an
earlier dialog already removed it), then connect the freshly constructed
dialog `d`'s `handle_serial_data`.  With `serial_worker` absent nothing
happens.  The dialog is shown with `show()` — non-modal — and the Calibrate
button stays enabled, so this can run again while a dialog is open. -/
def open_calibration_dialog (hasWorker : Bool) (d : Nat)
    (conns : List RouterTarget) : List RouterTarget :=
  if hasWorker then qtConnect (.calib d) (qtDisconnect .mainLog conns) else conns

/-- Closing calibration dialog `d`, by the Finish button, by the window
close after the `"Finished!"` marker, or by any abnormal close:
`CalibrationDialog.closeEvent` (lines 57-62) disconnects that dialog's own
`handle_serial_data` — and only it — then the dialog's `finished` signal
runs the lambda of line 287, which reconnects the fixed `log_message` slot
(the code saves no prior target). -/
def closeCalibrationDialog (d : Nat) (conns : List RouterTarget) :
    List RouterTarget :=
  qtConnect .mainLog (qtDisconnect (.calib d) conns)

/-- The router hand-off operations the program performs: opening dialog `d`
and closing dialog `d`. -/
inductive SwapOp where
  | toCalib (d : Nat)
  | toMain (d : Nat)
  deriving DecidableEq

def applyOp : SwapOp → List RouterTarget → List RouterTarget
  | .toCalib d => open_calibration_dialog true d
  | .toMain d => closeCalibrationDialog d

def applyOps : List SwapOp → List RouterTarget → List RouterTarget
  | [], conns => conns
  | op :: rest, conns => applyOps rest (applyOp op conns)

/-- Which sink currently holds the router in a single-session run: the main
log, or one open calibration dialog. -/
inductive RouterPhase where
  | atMain
  | inCalib (d : Nat)

/-- Single-session swap sequences: a dialog is opened only while the main
log holds the router, and the open dialog is closed before anything else
happens.  This is a discipline, not a reachability characterization: the
non-modal dialog lets the program also produce open-while-open sequences,
under which a delivered line reaches two targets (see the C4
counterexample). -/
def okFrom : RouterPhase → List SwapOp → Bool
  | _, [] => true
  | .atMain, .toCalib d :: rest => okFrom (.inCalib d) rest
  | .inCalib d, .toMain e :: rest => decide (d = e) && okFrom .atMain rest
  | _, _ => false

/-! ## `SerialWorker.run` / `SerialWorker.stop`: read loop and shutdown

    def run(self):
        try:
            self.serial_port = serial.Serial(self.port, self.baud_rate, timeout=1)
            self.running = True
            ...
            while self.running:
                if self.serial_port.in_waiting > 0:
                    line = self.serial_port.readline().decode('utf-8').strip()
                    if line:
                        self.data_received.emit(line)
        ...

    def stop(self):
        self.running = False
        self.quit()
        self.wait()

The loop and the stop caller interleave.  One loop iteration is split into
the `while` condition check and the body, so that `stop()` racing with an
in-flight iteration is representable.  `wait()` is a join: it returns only
after the loop has observed `running == False` and exited.

`data_received` is a cross-thread Qt signal: `run()` executes in the worker
thread while the receiving `MainWindow` (and the `SerialWorker` object
itself) live in the caller's thread, so the default AutoConnection resolves
to a queued connection.  `emit(line)` therefore does not invoke the slot: it
posts the slot call to the caller's event queue, and the slot runs when the
caller's event loop next processes events.  `stop()` runs on the caller's
thread and `wait()` blocks that thread, so no queued slot call is processed
between the call to `stop()` and its return — but calls queued by an
in-flight read remain pending and are processed after `stop()` returns. -/

/-- Interleaved state of the read loop and the caller's thread, entered at
the top of the `while` loop.  `pending` holds the raw lines the transport
will yield; `queued` the slot calls posted by `emit` and not yet processed;
`delivered` the lines whose slot call has run (the subscriber saw them);
`mainInStop` is true while the caller's thread is inside `stop()` (and so
not processing its event queue). -/
structure WorkerRun where
  running : Bool
  active : Bool
  inBody : Bool
  mainInStop : Bool
  stopReturned : Bool
  pending : List (List Char)
  queued : List (List Char)
  delivered : List (List Char)
  deriving DecidableEq

/-- One atomic step of the read-loop thread or of the caller's thread. -/
inductive WStep : WorkerRun → WorkerRun → Prop where
  | checkTrue (s : WorkerRun) (h1 : s.active = true) (h2 : s.running = true)
      (h3 : s.inBody = false) :
      WStep s { s with inBody := true }
  | exitLoop (s : WorkerRun) (h1 : s.active = true) (h2 : s.running = false)
      (h3 : s.inBody = false) :
      WStep s { s with active := false }
  | bodyRead (s : WorkerRun) (l : List Char) (rest : List (List Char))
      (h1 : s.inBody = true) (h2 : s.pending = l :: rest) :
      WStep s { s with
        pending := rest
        queued := s.queued ++ (if pyStrip l = [] then [] else [pyStrip l])
        inBody := false }
  | bodyIdle (s : WorkerRun) (h1 : s.inBody = true) (h2 : s.pending = []) :
      WStep s { s with inBody := false }
  | stopCall (s : WorkerRun) (h1 : s.mainInStop = false) :
      WStep s { s with running := false, mainInStop := true }
  | stopReturn (s : WorkerRun) (h1 : s.mainInStop = true) (h2 : s.active = false) :
      WStep s { s with mainInStop := false, stopReturned := true }
  | deliverEvt (s : WorkerRun) (l : List Char) (rest : List (List Char))
      (h1 : s.mainInStop = false) (h2 : s.queued = l :: rest) :
      WStep s { s with queued := rest, delivered := s.delivered ++ [l] }

/-- The worker state when the read loop starts: the port opened,
`self.running = True`, queue empty, nothing delivered, `stop()` not yet
called. -/
def initWorker (pending : List (List Char)) : WorkerRun :=
  { running := true
    active := true
    inBody := false
    mainInStop := false
    stopReturned := false
    pending := pending
    queued := []
    delivered := [] }

/-- Safety invariant of the worker interleaving: once `stop()` has returned
the loop thread has exited, and a loop body only runs on a live thread. -/
def workerInv (s : WorkerRun) : Prop :=
  (s.stopReturned = true → s.active = false) ∧ (s.inBody = true → s.active = true)

/-! ## Helper lemmas -/

theorem pySplit_ne_nil (sep : Char) (s : List Char) : pySplit sep s ≠ [] := by
  cases s with
  | nil => simp [pySplit]
  | cons c rest =>
    simp only [pySplit]
    by_cases h : c = sep
    · simp [h]
    · simp only [h, if_false]
      cases pySplit sep rest with
      | nil => simp
      | cons hd tl => simp

theorem pySplit_no_sep (sep : Char) (s : List Char) (h : sep ∉ s) :
    pySplit sep s = [s] := by
  induction s with
  | nil => rfl
  | cons c rest ih =>
    have hc : c ≠ sep := fun hcs => h (hcs ▸ List.mem_cons_self c rest)
    have hrest : sep ∉ rest := fun hm => h (List.mem_cons_of_mem c hm)
    simp only [pySplit, hc, if_false, ih hrest]

theorem pySplit_append_sep (sep : Char) (a b : List Char) (h : sep ∉ a) :
    pySplit sep (a ++ sep :: b) = a :: pySplit sep b := by
  induction a with
  | nil => simp [pySplit]
  | cons c a' ih =>
    have hc : c ≠ sep := fun hcs => h (hcs ▸ List.mem_cons_self c a')
    have ha' : sep ∉ a' := fun hm => h (List.mem_cons_of_mem c hm)
    simp only [List.cons_append, pySplit, hc, if_false, List.append_eq, ih ha']

theorem pyStartswith_self_append (p t : List Char) :
    pyStartswith p (p ++ t) = true := by
  induction p with
  | nil => rfl
  | cons c ps ih => simp [pyStartswith, ih]

theorem pyContainsSub_of_append (pre n post : List Char) :
    pyContainsSub n (pre ++ n ++ post) = true := by
  induction pre with
  | nil =>
    simp only [List.nil_append]
    cases hn : n ++ post with
    | nil =>
      rcases List.append_eq_nil.mp hn with ⟨h1, h2⟩
      subst h1
      subst h2
      rfl
    | cons x xs =>
      have h1 : pyStartswith n (n ++ post) = true := pyStartswith_self_append n post
      rw [hn] at h1
      simp [pyContainsSub, h1]
  | cons c pre' ih =>
    simp only [List.cons_append, pyContainsSub, List.append_eq, ih, Bool.or_true]

theorem digit_ne_comma (c : Char) (h : c.isDigit = true) : c ≠ ',' := by
  intro hc
  subst hc
  simp [Char.isDigit] at h

theorem digit_ne_colon (c : Char) (h : c.isDigit = true) : c ≠ ':' := by
  intro hc
  subst hc
  simp [Char.isDigit] at h

theorem digit_not_whitespace (c : Char) (h : c.isDigit = true) :
    c.isWhitespace = false := by
  simp only [Char.isDigit, decide_eq_true_eq] at h
  simp only [Char.isWhitespace]
  have h48 : ('0' : Char).val = 48 := rfl
  have h57 : ('9' : Char).val = 57 := rfl
  rw [Bool.or_eq_false_iff, Bool.or_eq_false_iff, Bool.or_eq_false_iff]
  refine ⟨⟨⟨?_, ?_⟩, ?_⟩, ?_⟩ <;>
    · rw [decide_eq_false_iff_not]
      intro hc
      subst hc
      revert h
      decide

theorem workerInv_init (pending : List (List Char)) : workerInv (initWorker pending) := by
  constructor <;> simp [initWorker]

theorem workerInv_step {s s' : WorkerRun} (h : workerInv s) (hs : WStep s s') :
    workerInv s' := by
  obtain ⟨h1, h2⟩ := h
  cases hs with
  | checkTrue ha hr hb => exact ⟨fun hsr => absurd ha (by simp [h1 hsr]), fun _ => ha⟩
  | exitLoop ha hr hb => exact ⟨fun _ => rfl, fun hb2 => absurd hb2 (by simp [hb])⟩
  | bodyRead l rest hb hp => exact ⟨fun hsr => h1 hsr, fun hb2 => absurd hb2 (by simp)⟩
  | bodyIdle hb hp => exact ⟨fun hsr => h1 hsr, fun hb2 => absurd hb2 (by simp)⟩
  | stopCall hm => exact ⟨fun hsr => h1 hsr, fun hb2 => h2 hb2⟩
  | stopReturn hm ha => exact ⟨fun _ => ha, fun hb2 => h2 hb2⟩
  | deliverEvt l rest hm hq => exact ⟨fun hsr => h1 hsr, fun hb2 => h2 hb2⟩

theorem workerInv_reach (pending : List (List Char)) (s : WorkerRun)
    (h : Relation.ReflTransGen WStep (initWorker pending) s) : workerInv s := by
  induction h with
  | refl => exact workerInv_init pending
  | tail hab hbc ih => exact workerInv_step ih hbc

/-- The connection list corresponding to a single-session phase. -/
def phaseConns : RouterPhase → List RouterTarget
  | .atMain => [RouterTarget.mainLog]
  | .inCalib d => [RouterTarget.calib d]

theorem open_from_main (d : Nat) :
    open_calibration_dialog true d [RouterTarget.mainLog] = [RouterTarget.calib d] := by
  simp [open_calibration_dialog, qtConnect, qtDisconnect]

theorem close_self (d : Nat) :
    closeCalibrationDialog d [RouterTarget.calib d] = [RouterTarget.mainLog] := by
  simp [closeCalibrationDialog, qtConnect, qtDisconnect]

theorem applyOps_ok_singleton (ops : List SwapOp) :
    ∀ p : RouterPhase, okFrom p ops = true →
      ∃ q : RouterPhase, applyOps ops (phaseConns p) = phaseConns q := by
  induction ops with
  | nil => exact fun p _ => ⟨p, rfl⟩
  | cons op rest ih =>
    intro p h
    cases p with
    | atMain =>
      cases op with
      | toCalib d =>
        simp only [okFrom] at h
        have hstep : applyOps (SwapOp.toCalib d :: rest) (phaseConns RouterPhase.atMain)
            = applyOps rest (phaseConns (RouterPhase.inCalib d)) := by
          show applyOps rest (open_calibration_dialog true d [RouterTarget.mainLog])
            = applyOps rest [RouterTarget.calib d]
          rw [open_from_main]
        rw [hstep]
        exact ih _ h
      | toMain d =>
        simp only [okFrom] at h
        exact (Bool.false_ne_true h).elim
    | inCalib d =>
      cases op with
      | toCalib e =>
        simp only [okFrom] at h
        exact (Bool.false_ne_true h).elim
      | toMain e =>
        simp only [okFrom, Bool.and_eq_true, decide_eq_true_eq] at h
        obtain ⟨hde, hrest⟩ := h
        subst hde
        have hstep : applyOps (SwapOp.toMain d :: rest) (phaseConns (RouterPhase.inCalib d))
            = applyOps rest (phaseConns RouterPhase.atMain) := by
          show applyOps rest (closeCalibrationDialog d [RouterTarget.calib d])
            = applyOps rest [RouterTarget.mainLog]
          rw [close_self]
        rw [hstep]
        exact ih _ hrest

/-! ## Claim theorems -/

/-- The worker state reached by: loop check passes, `stop()` is called while
that iteration is in flight, the iteration reads and queues `"10,2.5"`, the
loop observes the flag and exits, and `wait()` — hence `stop()` — returns.
The queued slot call has not yet been processed. -/
def stoppedWorker : WorkerRun :=
  { running := false, active := false, inBody := false, mainInStop := false,
    stopReturned := true, pending := [], queued := ["10,2.5".data], delivered := [] }

/-- `stoppedWorker` after the caller's event loop processes the queued slot
call: the line is delivered to the subscriber. -/
def drainedWorker : WorkerRun :=
  { running := false, active := false, inBody := false, mainInStop := false,
    stopReturned := true, pending := [], queued := [], delivered := ["10,2.5".data] }

theorem reach_stoppedWorker :
    Relation.ReflTransGen WStep (initWorker ["10,2.5".data]) stoppedWorker :=
  Relation.ReflTransGen.tail
    (Relation.ReflTransGen.tail
      (Relation.ReflTransGen.tail
        (Relation.ReflTransGen.tail
          (Relation.ReflTransGen.tail Relation.ReflTransGen.refl
            (WStep.checkTrue _ rfl rfl rfl))
          (WStep.stopCall _ rfl))
        (WStep.bodyRead _ "10,2.5".data [] rfl rfl))
      (WStep.exitLoop _ rfl rfl rfl))
    (WStep.stopReturn _ rfl rfl)

/-- C3 counterexample: `stop()` racing an in-flight read.  The iteration
reads `"10,2.5"` and its `emit` posts the queued slot call while the caller
is already blocked inside `stop()`; the loop exits and `stop()` returns with
the call still queued; processing it afterwards delivers a TelemetryLine to
the subscriber after `disconnect` returned — a step, taken from a reachable
state in which `stop()` has returned, that changes the delivered list. -/
theorem line_delivered_after_stop_returns :
    Relation.ReflTransGen WStep (initWorker ["10,2.5".data]) stoppedWorker ∧
    stoppedWorker.stopReturned = true ∧
    WStep stoppedWorker drainedWorker ∧
    drainedWorker.delivered ≠ stoppedWorker.delivered :=
  ⟨reach_stoppedWorker, rfl, WStep.deliverEvt _ "10,2.5".data [] rfl rfl, by decide⟩

/-- C3 (amended): after `stop()` returns the read loop has exited and emits
no further telemetry: every step taken from a state in which `stop()` has
returned leaves the emission history — lines delivered plus lines still
queued — unchanged.  A line emitted by an in-flight read before the loop
exited may still move from the queue to the subscriber after `stop()`
returns, but nothing new is emitted. -/
theorem no_emission_after_stop_returns (pending : List (List Char))
    (s s' : WorkerRun) (hreach : Relation.ReflTransGen WStep (initWorker pending) s)
    (hstop : s.stopReturned = true) (hstep : WStep s s') :
    s'.delivered ++ s'.queued = s.delivered ++ s.queued := by
  obtain ⟨h1, h2⟩ := workerInv_reach pending s hreach
  have hact : s.active = false := h1 hstop
  cases hstep with
  | checkTrue ha hr hb => exact absurd ha (by simp [hact])
  | exitLoop ha hr hb => rfl
  | bodyRead l rest hb hp => exact absurd (h2 hb) (by simp [hact])
  | bodyIdle hb hp => rfl
  | stopCall hm => rfl
  | stopReturn hm ha => rfl
  | deliverEvt l rest hm hq => simp [hq]

/-- Witness for the amended C3: processing the queued line after `stop()`
returned moves it from the queue to the subscriber without emitting
anything new. -/
theorem no_emission_after_stop_returns_witness :
    drainedWorker.delivered ++ drainedWorker.queued
      = stoppedWorker.delivered ++ stoppedWorker.queued :=
  no_emission_after_stop_returns ["10,2.5".data] stoppedWorker drainedWorker
    reach_stoppedWorker rfl (WStep.deliverEvt _ "10,2.5".data [] rfl rfl)

/-- C4 counterexample: the calibration dialog is shown non-modally and the
Calibrate button stays enabled, so a second dialog can be opened while the
first is open.  After open(1) then open(2), both dialogs' handlers are
connected and one delivered line reaches two targets; after additionally
closing dialog 1 — whose `finished` hand-back reconnects the main log while
dialog 2 is still open — a line delivered after the swap to dialog 2 also
reaches the main log sink. -/
theorem double_calibration_two_targets :
    (deliver (open_calibration_dialog true 2
      (open_calibration_dialog true 1 [RouterTarget.mainLog])) "10,2.5".data).length = 2 ∧
    RouterTarget.calib 1 ∈ deliver (open_calibration_dialog true 2
      (open_calibration_dialog true 1 [RouterTarget.mainLog])) "10,2.5".data ∧
    RouterTarget.calib 2 ∈ deliver (open_calibration_dialog true 2
      (open_calibration_dialog true 1 [RouterTarget.mainLog])) "10,2.5".data ∧
    RouterTarget.mainLog ∈ deliver (closeCalibrationDialog 1
      (open_calibration_dialog true 2
        (open_calibration_dialog true 1 [RouterTarget.mainLog]))) "10,2.5".data ∧
    RouterTarget.calib 2 ∈ deliver (closeCalibrationDialog 1
      (open_calibration_dialog true 2
        (open_calibration_dialog true 1 [RouterTarget.mainLog]))) "10,2.5".data := by
  decide

/-- C4 (amended): over every single-session swap sequence — no calibration
dialog opened while another is open — each delivered line reaches at most
one target; and right after the hand-off from the main log sink to
calibration dialog `d`, a delivered line reaches exactly that dialog's sink
and never the main log sink. -/
theorem router_swap_exclusive_delivery (ops : List SwapOp) (line : List Char)
    (d : Nat) (h : okFrom RouterPhase.atMain ops = true) :
    (deliver (applyOps ops [RouterTarget.mainLog]) line).length ≤ 1 ∧
    deliver (open_calibration_dialog true d [RouterTarget.mainLog]) line
      = [RouterTarget.calib d] ∧
    RouterTarget.mainLog ∉
      deliver (open_calibration_dialog true d [RouterTarget.mainLog]) line := by
  refine ⟨?_, ?_, ?_⟩
  · obtain ⟨q, hq⟩ := applyOps_ok_singleton ops RouterPhase.atMain h
    show (applyOps ops (phaseConns RouterPhase.atMain)).length ≤ 1
    rw [hq]
    cases q <;> simp [phaseConns]
  · show open_calibration_dialog true d [RouterTarget.mainLog] = [RouterTarget.calib d]
    exact open_from_main d
  · show RouterTarget.mainLog ∉ ([RouterTarget.calib d] : List RouterTarget)
    simp

/-- Witness for the amended C4: the single-session open-then-close sequence
on dialog 1 with the line `"10,2.5"`. -/
theorem router_swap_exclusive_delivery_witness :
    (deliver (applyOps [SwapOp.toCalib 1, SwapOp.toMain 1] [RouterTarget.mainLog])
      "10,2.5".data).length ≤ 1 ∧
    deliver (open_calibration_dialog true 1 [RouterTarget.mainLog]) "10,2.5".data
      = [RouterTarget.calib 1] ∧
    RouterTarget.mainLog ∉
      deliver (open_calibration_dialog true 1 [RouterTarget.mainLog]) "10,2.5".data :=
  router_swap_exclusive_delivery [SwapOp.toCalib 1, SwapOp.toMain 1] "10,2.5".data 1
    (by decide)

/-- C5 counterexample: a session started while another session holds the
router.  Dialog 2 opens while dialog 1's sink is the target (pre-start
target `[calib 1]`); when dialog 2 ends, its close path removes its own
sink and reconnects the fixed main log slot, leaving `[calib 1, mainLog]` —
not the target that held the router before dialog 2's `start()`. -/
theorem nested_calibration_not_restored :
    closeCalibrationDialog 2 (open_calibration_dialog true 2 [RouterTarget.calib 1])
      = [RouterTarget.calib 1, RouterTarget.mainLog] ∧
    closeCalibrationDialog 2 (open_calibration_dialog true 2 [RouterTarget.calib 1])
      ≠ [RouterTarget.calib 1] := by
  decide

/-- C5 (amended): the close path — `CalibrationDialog.closeEvent` plus the
`finished` hand-back, run by all three end modes — removes the closing
dialog's own sink and reconnects the fixed main log sink; for every session
started while the main log sink was the sole target, this restores exactly
the target that held the router before `start()`. -/
theorem calibration_restores_previous_target (d : Nat) (pre : List RouterTarget)
    (h : pre = [RouterTarget.mainLog]) :
    closeCalibrationDialog d (open_calibration_dialog true d pre) = pre := by
  subst h
  rw [open_from_main]
  exact close_self d

/-- Witness for the amended C5: dialog 1's hand-off from and back to the
main log sink. -/
theorem calibration_restores_previous_target_witness :
    closeCalibrationDialog 1 (open_calibration_dialog true 1 [RouterTarget.mainLog])
      = [RouterTarget.mainLog] :=
  calibration_restores_previous_target 1 [RouterTarget.mainLog] rfl

/-- C1 counterexample: the comma-free line `"Motor started"` does not split
into two fields, yet while logging is active the record step writes no row
at all — not the opaque row `[ts, rawLine, ""]` the claim describes. -/
theorem motor_started_line_not_logged :
    csvRecordRow true true "t".data "Motor started".data = none ∧
    csvRecordRow true true "t".data "Motor started".data
      ≠ some ["t".data, "Motor started".data, []] := by
  refine ⟨by decide, by decide⟩

/-- C1 (amended): while logging is active, a delivered line that does not
split on `,` into exactly two fields is written as the opaque row
`[timestamp, rawLine, ""]` exactly when the line contains a comma;
a comma-free line (such as `"Motor started"`) is not logged at all. -/
theorem opaque_row_requires_comma (ts msg : List Char)
    (h : (pySplit ',' msg).length ≠ 2) :
    csvRecordRow true true ts msg
      = if msg.contains ',' then some [ts, msg, []] else none := by
  simp [csvRecordRow, h]

/-- Witness for the amended C1: `"a,b,c"` splits into three fields and is
logged opaquely with the raw line preserved verbatim. -/
theorem opaque_row_requires_comma_witness :
    (pySplit ',' "a,b,c".data).length ≠ 2 ∧
    csvRecordRow true true "t".data "a,b,c".data
      = if ("a,b,c".data).contains ',' then some ["t".data, "a,b,c".data, []]
        else none :=
  ⟨by decide, opaque_row_requires_comma "t".data "a,b,c".data (by decide)⟩

/-- C2 counterexample: the peelForceSerialCom.py variant has no settings-echo
interception: while logging is active the configuration echo
`"R:100,I:1000"` is written to the log as a two-field data record, and the
stored rpm / interval values are not updated. -/
theorem settings_echo_logged_in_com_variant :
    (log_message_Com true true "t".data "R:100,I:1000".data).row
      = some ["t".data, "R:100".data, "I:1000".data] ∧
    (log_message_Com true true "t".data "R:100,I:1000".data).rpmSet = none ∧
    (log_message_Com true true "t".data "R:100,I:1000".data).intervalSet = none := by
  decide

theorem log_message_guard_true (m w : Bool) (ts msg r i : List Char)
    (hg : (pyStartswith "R:".data msg && pyContainsSub ",I:".data msg) = true)
    (hs : settingsParse msg = some (r, i)) :
    log_message m w ts msg
      = { displayed := ["Received Settings: ".data ++ msg]
          rpmSet := some r
          intervalSet := some i
          row := none } := by
  simp [log_message, hg, hs]

/-- C2 (amended): in the peelForceSerial.py variant, every received line of
the form `R:<rpm>,I:<interval>` (digit payloads) is recognized as a
configuration echo: the stored rpm and interval values are updated to the
reported payloads, and the line is never written to the log as a data
record, whatever the logging state. -/
theorem settings_echo_intercepted (m w : Bool) (ts rpm itv : List Char)
    (hr : ∀ c ∈ rpm, c.isDigit = true) (hi : ∀ c ∈ itv, c.isDigit = true) :
    (log_message m w ts ("R:".data ++ (rpm ++ (",I:".data ++ itv)))).rpmSet = some rpm ∧
    (log_message m w ts ("R:".data ++ (rpm ++ (",I:".data ++ itv)))).intervalSet = some itv ∧
    (log_message m w ts ("R:".data ++ (rpm ++ (",I:".data ++ itv)))).row = none := by
  have hrc : (',' : Char) ∉ rpm := fun hm => digit_ne_comma ',' (hr ',' hm) rfl
  have hrk : (':' : Char) ∉ rpm := fun hm => digit_ne_colon ':' (hr ':' hm) rfl
  have hic : (',' : Char) ∉ itv := fun hm => digit_ne_comma ',' (hi ',' hm) rfl
  have hik : (':' : Char) ∉ itv := fun hm => digit_ne_colon ':' (hi ':' hm) rfl
  have hmsg : "R:".data ++ (rpm ++ (",I:".data ++ itv))
      = ('R' :: ':' :: rpm) ++ ',' :: ('I' :: ':' :: itv) := by
    simp
  have hna : (',' : Char) ∉ ('R' :: ':' :: rpm) := by
    intro hm
    simp at hm
    exact hrc hm
  have hnb : (',' : Char) ∉ ('I' :: ':' :: itv) := by
    intro hm
    simp at hm
    exact hic hm
  have hsplit : pySplit ',' (('R' :: ':' :: rpm) ++ ',' :: ('I' :: ':' :: itv))
      = ('R' :: ':' :: rpm) :: [('I' :: ':' :: itv)] := by
    rw [pySplit_append_sep ',' _ _ hna, pySplit_no_sep ',' _ hnb]
  have hpa : pySplit ':' ('R' :: ':' :: rpm) = [['R'], rpm] := by
    have he : ('R' :: ':' :: rpm) = ['R'] ++ ':' :: rpm := rfl
    rw [he, pySplit_append_sep ':' ['R'] rpm (by simp), pySplit_no_sep ':' rpm hrk]
  have hpb : pySplit ':' ('I' :: ':' :: itv) = [['I'], itv] := by
    have he : ('I' :: ':' :: itv) = ['I'] ++ ':' :: itv := rfl
    rw [he, pySplit_append_sep ':' ['I'] itv (by simp), pySplit_no_sep ':' itv hik]
  have hg1 : pyStartswith "R:".data (('R' :: ':' :: rpm) ++ ',' :: ('I' :: ':' :: itv))
      = true := by
    simp [pyStartswith]
  have hg2 : pyContainsSub ",I:".data (('R' :: ':' :: rpm) ++ ',' :: ('I' :: ':' :: itv))
      = true := by
    have h3 : ('R' :: ':' :: rpm) ++ ',' :: ('I' :: ':' :: itv)
        = ('R' :: ':' :: rpm) ++ ",I:".data ++ itv := by
      simp
    rw [h3]
    exact pyContainsSub_of_append _ _ _
  have hsp : settingsParse (('R' :: ':' :: rpm) ++ ',' :: ('I' :: ':' :: itv))
      = some (rpm, itv) := by
    simp only [settingsParse, hsplit]
    simp [List.getD, hpa, hpb]
  rw [hmsg]
  rw [log_message_guard_true m w ts _ rpm itv (by rw [hg1, hg2]; rfl) hsp]
  exact ⟨rfl, rfl, rfl⟩

/-- Witness for the amended C2: the echo `"R:100,I:1000"` updates the rpm
field to `100` and the interval field to `1000` and is never logged, even
with logging active. -/
theorem settings_echo_intercepted_witness :
    (log_message true true "t".data
      ("R:".data ++ ("100".data ++ (",I:".data ++ "1000".data)))).rpmSet
        = some "100".data ∧
    (log_message true true "t".data
      ("R:".data ++ ("100".data ++ (",I:".data ++ "1000".data)))).intervalSet
        = some "1000".data ∧
    (log_message true true "t".data
      ("R:".data ++ ("100".data ++ (",I:".data ++ "1000".data)))).row = none :=
  settings_echo_intercepted true true "t".data "100".data "1000".data
    (by decide) (by decide)

/-- Truthiness of `self.serial_port and self.serial_port.is_open`: the
transport is usable iff a port object exists and is open. -/
def portConnected : Option PortHandle → Bool
  | some p => p.isOpen
  | none => false

/-- C6 counterexample: with no transport, sending the Start command produces
the silent fall-through of `send_command` — it is not the error outcome
`SendError::NotConnected` the claim describes: nothing is written and no
error is reported to the caller. -/
theorem send_command_silent_not_error :
    send_command none (serializeCommand CommandRequest.start) = SendOutcome.silent ∧
    SendOutcome.silent ≠ SendOutcome.err SendError.notConnected := by
  decide

/-- C6 (amended): for every command, `send_command` invoked when the
transport is absent or closed silently drops the command: no bytes are
written and no error is reported. -/
theorem send_command_disconnected_silent_drop (c : CommandRequest)
    (port : Option PortHandle) (h : portConnected port = false) :
    send_command port (serializeCommand c) = SendOutcome.silent := by
  cases port with
  | none => rfl
  | some p =>
    have hp : p.isOpen = false := h
    simp [send_command, hp]

/-- Witness for the amended C6: sending Start with no port object. -/
theorem send_command_disconnected_silent_drop_witness :
    portConnected none = false ∧
    send_command none (serializeCommand CommandRequest.start) = SendOutcome.silent :=
  ⟨rfl, send_command_disconnected_silent_drop CommandRequest.start none rfl⟩

/-- C7: while logging is active, a delivered line that splits on `,` into
exactly two fields is written by the record step as the single row
`[timestamp, field1.strip(), field2.strip()]`. -/
theorem two_field_line_logged_trimmed (ts msg f1 f2 : List Char)
    (h : pySplit ',' msg = [f1, f2]) :
    csvRecordRow true true ts msg = some [ts, pyStrip f1, pyStrip f2] := by
  simp [csvRecordRow, h]

/-- Witness for C7: receiving `"10,2.5"` yields the row
`[ts, "10", "2.5"]`. -/
theorem two_field_line_logged_trimmed_witness :
    pySplit ',' "10,2.5".data = ["10".data, "2.5".data] ∧
    csvRecordRow true true "t".data "10,2.5".data
      = some ["t".data, pyStrip "10".data, pyStrip "2.5".data] :=
  ⟨by decide,
    two_field_line_logged_trimmed "t".data "10,2.5".data "10".data "2.5".data (by decide)⟩

/-- C8: for digit payloads, `serializeCommand` formats SetRPM as
`"R" ++ rpm ++ "\n"` and SetInterval as `"I" ++ interval ++ "\n"`, with the
terminating line feed as the only whitespace character; the fixed commands
serialize as `"A\n"` (start), `"B\n"` (stop), `"C\n"` (reset) and `"D\n"`
(enter calibration). -/
theorem command_serialization_format (rpm itv : List Char)
    (hr : ∀ c ∈ rpm, c.isDigit = true) (hi : ∀ c ∈ itv, c.isDigit = true) :
    serializeCommand (CommandRequest.setRPM rpm) = 'R' :: (rpm ++ ['\n']) ∧
    serializeCommand (CommandRequest.setInterval itv) = 'I' :: (itv ++ ['\n']) ∧
    (∀ c ∈ serializeCommand (CommandRequest.setRPM rpm),
      c.isWhitespace = true → c = '\n') ∧
    (∀ c ∈ serializeCommand (CommandRequest.setInterval itv),
      c.isWhitespace = true → c = '\n') ∧
    serializeCommand CommandRequest.start = ['A', '\n'] ∧
    serializeCommand CommandRequest.stop = ['B', '\n'] ∧
    serializeCommand CommandRequest.reset = ['C', '\n'] ∧
    serializeCommand CommandRequest.calibrate = ['D', '\n'] := by
  refine ⟨rfl, rfl, ?_, ?_, rfl, rfl, rfl, rfl⟩
  · intro c hc hw
    simp only [serializeCommand, List.mem_cons, List.mem_append,
      List.mem_singleton] at hc
    rcases hc with hc | hc | hc | hc
    · subst hc
      exact absurd hw (by decide)
    · exact absurd hw (by simp [digit_not_whitespace c (hr c hc)])
    · exact hc
    · exact absurd hc (List.not_mem_nil c)
  · intro c hc hw
    simp only [serializeCommand, List.mem_cons, List.mem_append,
      List.mem_singleton] at hc
    rcases hc with hc | hc | hc | hc
    · subst hc
      exact absurd hw (by decide)
    · exact absurd hw (by simp [digit_not_whitespace c (hi c hc)])
    · exact hc
    · exact absurd hc (List.not_mem_nil c)

/-- Witness for C8: rpm 100 and interval 1000. -/
theorem command_serialization_format_witness :
    serializeCommand (CommandRequest.setRPM "100".data) = 'R' :: ("100".data ++ ['\n']) ∧
    serializeCommand (CommandRequest.setInterval "1000".data)
      = 'I' :: ("1000".data ++ ['\n']) ∧
    (∀ c ∈ serializeCommand (CommandRequest.setRPM "100".data),
      c.isWhitespace = true → c = '\n') ∧
    (∀ c ∈ serializeCommand (CommandRequest.setInterval "1000".data),
      c.isWhitespace = true → c = '\n') ∧
    serializeCommand CommandRequest.start = ['A', '\n'] ∧
    serializeCommand CommandRequest.stop = ['B', '\n'] ∧
    serializeCommand CommandRequest.reset = ['C', '\n'] ∧
    serializeCommand CommandRequest.calibrate = ['D', '\n'] :=
  command_serialization_format "100".data "1000".data (by decide) (by decide)

/-- C9 (code bug): the peelForceSerial.py variant opens the chosen port with
baud rate 115220 — matching neither observed protocol generation (9600 or
115200); the Com variant uses 115200 as described. With a port selected the
worker is constructed with the caller-chosen port identifier and the
hard-coded baud rate. -/
theorem connect_baud_rate_mismatch :
    toggle_connection "COM3".data
      = some { port := "COM3".data, baud := 115220 } ∧
    (115220 : Nat) ≠ 9600 ∧ (115220 : Nat) ≠ 115200 ∧
    toggle_connection_Com "COM3".data
      = some { port := "COM3".data, baud := 115200 } := by
  refine ⟨by decide, by decide, by decide, by decide⟩

/-- C10: when creating the log file fails in `start_motor`, the failure is
atomic: the Start command is not sent, `motor_is_running` stays false, both
the file handle and the writer end up unset, and the record step therefore
writes nothing for any subsequently delivered telemetry. -/
theorem start_motor_failure_atomic (st : MotorState) (e ts msg : List Char)
    (hw : st.hasWorker = true) (hm : st.motorRunning = false) :
    (start_motor st (.fail e)).sent = st.sent ∧
    (start_motor st (.fail e)).motorRunning = false ∧
    (start_motor st (.fail e)).hasCsvFile = false ∧
    (start_motor st (.fail e)).hasCsvWriter = false ∧
    csvRecordRow (start_motor st (.fail e)).motorRunning
      (start_motor st (.fail e)).hasCsvWriter ts msg = none := by
  have hst : start_motor st (.fail e)
      = { st with hasCsvFile := false, hasCsvWriter := false } := by
    simp [start_motor, hw, hm]
  rw [hst]
  refine ⟨rfl, hm, rfl, rfl, ?_⟩
  simp [csvRecordRow]

/-- A connected, idle main window: worker present, motor stopped, no log
file open, nothing sent yet. -/
def idleConnectedWindow : MotorState :=
  { hasWorker := true, motorRunning := false, hasCsvFile := false,
    hasCsvWriter := false, sent := [] }

/-- Witness for C10: a connected, idle window whose log-file creation
raises. -/
theorem start_motor_failure_atomic_witness :
    (start_motor idleConnectedWindow (OpenResult.fail "ENOENT".data)).sent
      = idleConnectedWindow.sent ∧
    (start_motor idleConnectedWindow (OpenResult.fail "ENOENT".data)).motorRunning = false ∧
    (start_motor idleConnectedWindow (OpenResult.fail "ENOENT".data)).hasCsvFile = false ∧
    (start_motor idleConnectedWindow (OpenResult.fail "ENOENT".data)).hasCsvWriter = false ∧
    csvRecordRow (start_motor idleConnectedWindow (OpenResult.fail "ENOENT".data)).motorRunning
      (start_motor idleConnectedWindow (OpenResult.fail "ENOENT".data)).hasCsvWriter
      "t".data "10,2.5".data = none :=
  start_motor_failure_atomic idleConnectedWindow
    "ENOENT".data "t".data "10,2.5".data rfl rfl

end PeelForce
